import Mathlib

/-!
Verification development for the AlphaPy `features` module
(`alphapy/features.py`).

The Python module is shallowly embedded here:

* pandas/NumPy columns become Lean lists; a missing value (`NaN`) is an
  explicit `Option`/`Val.missing` constructor;
* machine floats are modelled by `ℚ` where the code's behaviour is exact
  arithmetic and control flow; genuinely external numeric routines
  (sklearn imputers and scalers, scipy's normality test, the
  `category_encoders` contrast encoders, the text count-vectorizer,
  `np.log`, `math.sqrt`, the float-formatting `float_factor` helper) are
  parameters of the embedding, bundled in the `Ext` structure or passed
  explicitly, so every theorem quantifies over their behaviour;
* Python exceptions (`ValueError`, `TypeError`, `KeyError`,
  `ZeroDivisionError`) become `Except` errors.
-/

/-! ### Sequential statistics: `runs` and `zscore` -/

/-- Model of `np.count_nonzero(vec)`: number of entries of the window that are
nonzero. -/
def countNonzero (vec : List ℚ) : ℕ :=
  (vec.filter (fun x => x ≠ 0)).length

/-- Model of `runs(vec) = len(list(groupby(vec)))`: the number of maximal runs of
equal adjacent values. -/
def runsCount : List ℚ → ℕ
  | [] => 0
  | [_] => 1
  | x :: y :: t => (if x = y then 0 else 1) + runsCount (y :: t)

/-- Embedding of `zscore(vec)` from `features.py`.

`s` stands for `math.sqrt` (an IEEE-float routine, kept abstract; the
theorems below only use that `s 0 = 0`).  Python raises
`ZeroDivisionError` when a float is divided by `0.0`; those divisions
become `Except.error ()`:

* `rbar = fac1 / fac2 + 1` raises when `fac2 = 0` (empty window);
* `sr = math.sqrt(sr2num / sr2den)` raises when `sr2den = 0` — note that
  this division happens *before* the `if sr2den and sr` guard, so the
  guard's `sr2den` test can never actually fire.

The final `if sr2den and sr` mirrors Python float truthiness: the branch
is taken exactly when both `sr2den` and `sr` are nonzero. -/
def zscoreE (s : ℚ → ℚ) (vec : List ℚ) : Except Unit ℚ :=
  let n1 : ℚ := countNonzero vec
  let n2 : ℚ := (vec.length : ℚ) - n1
  let fac1 : ℚ := 2 * n1 * n2
  let fac2 : ℚ := n1 + n2
  if fac2 = 0 then Except.error () else
  let rbar : ℚ := fac1 / fac2 + 1
  let sr2num : ℚ := fac1 * (fac1 - n1 - n2)
  let sr2den : ℚ := fac2 ^ 2 * (fac2 - 1)
  if sr2den = 0 then Except.error () else
  let sr : ℚ := s (sr2num / sr2den)
  if sr2den ≠ 0 ∧ sr ≠ 0 then
    Except.ok (((runsCount vec : ℚ) - rbar) / sr)
  else
    Except.ok 0

/-! ### `pd.factorize` -/

/-- The distinct values of a list in first-seen order (the `uniques`
returned by `pd.factorize`); `seen` accumulates values already
emitted. -/
def firstSeenAux {α : Type} [DecidableEq α] (seen : List α) : List α → List α
  | [] => []
  | x :: xs => if x ∈ seen then firstSeenAux seen xs
               else x :: firstSeenAux (x :: seen) xs

/-- Distinct values in first-seen order. -/
def firstSeenUniques {α : Type} [DecidableEq α] (xs : List α) : List α :=
  firstSeenAux [] xs

/-- Index of the first occurrence of `a` in a list (length of the list
when absent). -/
def fsIndex {α : Type} [DecidableEq α] (a : α) : List α → ℕ
  | [] => 0
  | x :: xs => if x = a then 0 else fsIndex a xs + 1

/-- Model of `pd.factorize` on a column that may contain missing values: each
present value is mapped to the first-seen index of its value among the
present distinct values, and a missing value is coded `-1` (the pandas
missing marker). -/
def pdFactorizeOpt {α : Type} [DecidableEq α] (xs : List (Option α)) : List ℤ :=
  let us := firstSeenUniques (xs.filterMap id)
  xs.map (fun o => match o with
    | none => (-1 : ℤ)
    | some v => (fsIndex v us : ℤ))

/-! ### Column values, dtypes, configuration -/

/-- A cell of a pandas DataFrame: a numeric value (floats, ints and
bools are all modelled as exact rationals), a string (an `object`
cell), or a missing value (`NaN`/`None`). -/
inductive Val
  | num (q : ℚ)
  | str (s : String)
  | missing
deriving DecidableEq

/-- The pandas dtype of a column.  `other` stands for any dtype that the
dispatch in `create_features` does not recognize. -/
inductive DType
  | float64
  | int64
  | bool
  | object
  | other (name : String)
deriving DecidableEq

/-- The `Encoders` enumeration of `features.py`.  The Python enum has
exactly the first 8 members; `unknownEnc` represents any non-enum value
that a configuration may place in `model.specs['encoder']` and that the
encoder dispatch's final `else: raise ValueError` branch handles. -/
inductive Encoders
  | factorize
  | onehot
  | ordinal
  | binary
  | helmert
  | sumcont
  | polynomial
  | backdiff
  | unknownEnc (v : String)
deriving DecidableEq

/-- The `Scalers` enumeration of `features.py`; `unknownScaler`
represents any non-enum value in `model.specs['scaler_type']`, handled
by the `else: logger.info("Unrecognized scaler: ...")` branch. -/
inductive Scalers
  | standard
  | minmax
  | unknownScaler (v : String)
deriving DecidableEq

/-- The external numeric routines used by `features.py` but implemented
in other libraries (sklearn, scipy, category_encoders, numpy, and the
float-formatting helper `float_factor`).  The embedding is parametric in
their behaviour. -/
structure Externals (α : Type) where
  /-- Stands for `enc.fit_transform(ef, None)` for the six `category_encoders`
  contrast encoders: one output row of encoded columns per input row. -/
  contrastFit : Encoders → List α → List (List ℚ)
  /-- Stands for `CountVectorizer(...).fit_transform` followed by
  `TfidfTransformer().fit_transform(...).todense()`; `none` models the
  vectorizer raising an exception (e.g. empty vocabulary). -/
  vecAttempt : List String → Option (List (List ℚ))
  /-- sklearn `Imputer.fit_transform`: median strategy for `float64`,
  most-frequent for `int64`/`bool` (the strategy choice is a function of
  the dtype argument). -/
  impute : DType → List (Option ℚ) → List ℚ
  /-- the p-value returned by `scipy.stats.normaltest`. -/
  normaltestP : List ℚ → ℚ
  /-- elementwise `np.log`. -/
  logQ : ℚ → ℚ
  /-- Stands for `float_factor(x, rounding)`: format the float to `rounding`
  decimals, strip non-digits, parse as integer — an IEEE-float string
  operation, kept abstract. -/
  floatFactor : ℕ → α → α
  /-- Stands for `StandardScaler().fit_transform`. -/
  stdScale : List (List ℚ) → List (List ℚ)
  /-- Stands for `MinMaxScaler().fit_transform`. -/
  mmScale : List (List ℚ) → List (List ℚ)

/-! ### `get_factors`: categorical encoding and target-rate augmentation -/

/-- The per-category empirical target rate from
`pd.crosstab(X[fname], y).apply(lambda r: r / r.sum(), axis=1).to_dict()[target_value]`.
`pd.crosstab` drops every row whose category cell is missing (`NaN` is
never a crosstab key), so only the training pairs with a non-missing
category (`isNA p.1 = false`) enter the table; `isNA` is the pandas
missingness test for the cell type at hand.  For a category `v`
occurring among those pairs, the rate is the fraction of its pairs whose
label equals `target_value`; otherwise `none` (the dict `get` returns
`None`), which covers both a category unseen in the training partition
and a missing cell itself. -/
def ctRate {α : Type} [DecidableEq α] (isNA : α → Bool)
    (XtrainCol : List α) (ytrain : List ℤ)
    (targetValue : ℤ) (v : α) : Option ℚ :=
  let pairs := (XtrainCol.zip ytrain).filter (fun p => !(isNA p.1))
  let tot := (pairs.filter (fun p => decide (p.1 = v))).length
  if tot = 0 then none
  else some (((pairs.filter (fun p => decide (p.1 = v ∧ p.2 = targetValue))).length : ℚ) / (tot : ℚ))

/-- Embedding of `get_factors` from `features.py`.

* floats are first quantized via `float_factor`;
* the encoder dispatch assigns `enc` for the six contrast encoders,
  leaves it `None` for `factorize`/`onehot` (whose `ce_features` /
  `pd.get_dummies` results are computed but never used afterwards, since
  the returned `all_features` is only assigned under `if enc is not
  None`), and raises `ValueError` on an unknown encoder;
* when `enc` was set and `classify` holds, the per-category training
  target rates are broadcast over the whole column (`df[[fname]]`),
  unmapped rows — categories unseen among the crosstab's rows, and
  missing cells — are filled with `sentinel`, and the rate column is
  stacked onto the encoded block.  `ct.to_dict()[target_value]` raises
  `KeyError` when `target_value` labels no row of the crosstab; since
  the crosstab drops missing-category rows, labels paired only with
  missing cells do not count. -/
def getFactors {α : Type} [DecidableEq α] (ext : Externals α) (isNA : α → Bool)
    (encoder : Encoders) (dtype : DType) (rounding : ℕ)
    (dfCol : List α) (XtrainCol : List α) (ytrain : List ℤ)
    (targetValue : ℤ) (sentinel : ℚ) (classify : Bool) :
    Except String (Option (List (List ℚ))) :=
  let feature := if dtype = DType.float64 then dfCol.map (ext.floatFactor rounding) else dfCol
  let encRes : Except String (Option (List (List ℚ))) :=
    match encoder with
    | Encoders.factorize => Except.ok none
    | Encoders.onehot => Except.ok none
    | Encoders.ordinal => Except.ok (some (ext.contrastFit encoder feature))
    | Encoders.binary => Except.ok (some (ext.contrastFit encoder feature))
    | Encoders.helmert => Except.ok (some (ext.contrastFit encoder feature))
    | Encoders.sumcont => Except.ok (some (ext.contrastFit encoder feature))
    | Encoders.polynomial => Except.ok (some (ext.contrastFit encoder feature))
    | Encoders.backdiff => Except.ok (some (ext.contrastFit encoder feature))
    | Encoders.unknownEnc _ => Except.error "Unknown Encoder"
  match encRes with
  | Except.error e => Except.error e
  | Except.ok none => Except.ok none
  | Except.ok (some encRows) =>
    if classify then
      if targetValue ∈ ((XtrainCol.zip ytrain).filter (fun p => !(isNA p.1))).map Prod.snd then
        let rates := dfCol.map (fun v => (ctRate isNA XtrainCol ytrain targetValue v).getD sentinel)
        Except.ok (some (List.zipWith (fun r q => r ++ [q]) encRows rates))
      else Except.error "KeyError"
    else Except.ok (some encRows)

/-! ### `get_numerical_features` -/

/-- Embedding of `get_numerical_features`: impute, then log-transform
exactly when the option is on, all imputed values are strictly positive
(`np.all(new_values > 0)`), and the normality-test p-value is at most
`plevel`. -/
def getNumericalFeatures {α : Type} (ext : Externals α) (feature : List (Option ℚ))
    (dt : DType) (logt : Bool) (plevel : ℚ) : List ℚ :=
  let newValues := ext.impute dt feature
  if logt && newValues.all (fun v => decide (0 < v)) then
    if ext.normaltestP newValues ≤ plevel then newValues.map ext.logQ
    else newValues
  else newValues

/-! ### `get_text_features` -/

/-- Modelled from the spec: the fixed null-text placeholder `NULLTEXT`
imported from `alphapy.globs`, a module not among the sources here.
Spec §4.4: "Missing values are filled with a fixed null-text
placeholder".  Its concrete value is irrelevant to every claim. -/
def NULLTEXT : String := "NULL"

/-- The output of the text transform: a dense TF-IDF matrix from
vectorization, or a single factorized integer-id column. -/
inductive TextBlock
  | dense (rows : List (List ℚ))
  | factorized (ids : List ℤ)
deriving DecidableEq

/-- Embedding of `get_text_features`.

`int(feature.str.len().min())` is evaluated before the `fillna`: the
minimum is taken over the lengths of the *present* values, and when the
column has no present value at all the minimum is `NaN` and `int(NaN)`
raises `ValueError` — modelled by `Except.error ()`.  Afterwards missing
values are filled with `NULLTEXT`; with vectorization enabled the
vectorizer is attempted on the filled column and any exception
(`ext.vecAttempt _ = none`) falls back to `pd.factorize`; with
vectorization disabled the filled column is factorized directly. -/
def getTextFeatures {α : Type} (ext : Externals α) (feature : List (Option String))
    (vectorize : Bool) : Except Unit TextBlock :=
  let presentLens := (feature.filterMap id).map String.length
  match presentLens.min? with
  | none => Except.error ()
  | some _ =>
    let filled := feature.map (fun o => o.getD NULLTEXT)
    if vectorize then
      match ext.vecAttempt filled with
      | some rows => Except.ok (TextBlock.dense rows)
      | none => Except.ok (TextBlock.factorized (pdFactorizeOpt (filled.map some)))
    else Except.ok (TextBlock.factorized (pdFactorizeOpt (filled.map some)))

/-! ### The per-column dispatch of `create_features` -/

/-- A dataset column: a pandas dtype together with its cells. -/
structure Column where
  dtype : DType
  vals : List Val
deriving DecidableEq

/-- View a cell as a number (numeric columns). -/
def valToQ : Val → Option ℚ
  | Val.num q => some q
  | _ => none

/-- View a cell as a string (`object` columns). -/
def valToStr : Val → Option String
  | Val.str s => some s
  | _ => none

/-- Model of `len(X[fc].unique())`: the number of distinct cell values of the
column, a missing value counting as one distinct value. -/
def nuniqueCol (col : Column) : ℕ :=
  (firstSeenUniques col.vals).length

/-- A feature block produced for one column: a single numeric column, a
2-D block, or a text-transform output. -/
inductive FBlock
  | numeric (xs : List ℚ)
  | matrix (rows : List (List ℚ))
  | text (tb : TextBlock)
deriving DecidableEq

/-- The configuration options of `model.specs` read by the per-column
dispatch (`ngrams_max` is folded into `Externals.vecAttempt`). -/
structure Config where
  dummyLimit : ℕ
  encoder : Encoders
  rounding : ℕ
  sentinel : ℚ
  targetValue : ℤ
  logtransform : Bool
  pvalueLevel : ℚ
  vectorize : Bool
  classify : Bool

/-- The type/cardinality dispatch of the `create_features` column loop:
cardinality at most `dummy_limit` → `get_factors`; numeric dtype →
`get_numerical_features`; `object` dtype → `get_text_features`; anything
else raises `TypeError` ("Base Feature Error").  `Except.ok none`
is `get_factors` returning `None` (then nothing is appended). -/
def dispatchColumn (ext : Externals Val) (cfg : Config) (col : Column)
    (XtrainCol : List Val) (ytrain : List ℤ) : Except String (Option FBlock) :=
  if nuniqueCol col ≤ cfg.dummyLimit then
    (getFactors ext (fun v => decide (v = Val.missing)) cfg.encoder col.dtype
        cfg.rounding col.vals XtrainCol ytrain
        cfg.targetValue cfg.sentinel cfg.classify).map (Option.map FBlock.matrix)
  else if col.dtype = DType.float64 ∨ col.dtype = DType.int64 ∨ col.dtype = DType.bool then
    Except.ok (some (FBlock.numeric
      (getNumericalFeatures ext (col.vals.map valToQ) col.dtype
        cfg.logtransform cfg.pvalueLevel)))
  else if col.dtype = DType.object then
    match getTextFeatures ext (col.vals.map valToStr) cfg.vectorize with
    | Except.error _ => Except.error "ValueError"
    | Except.ok tb => Except.ok (some (FBlock.text tb))
  else Except.error "Base Feature Error with unrecognized type"

/-- One iteration of the `create_features` column loop: when a treatment
is configured for the column, `apply_treatment` runs first and its block
is stacked; then the type dispatch runs unconditionally and its block
(when not `None`) is stacked as well.  The treatment function itself is
configuration-supplied code (invoked through `eval`), hence a
parameter. -/
def processColumn (ext : Externals Val) (cfg : Config)
    (treatment : Option (Column → List (List ℚ))) (col : Column)
    (XtrainCol : List Val) (ytrain : List ℤ) :
    Except String (List FBlock) :=
  let tblocks : List FBlock :=
    match treatment with
    | some t => [FBlock.matrix (t col)]
    | none => []
  match dispatchColumn ext cfg col XtrainCol ytrain with
  | Except.error e => Except.error e
  | Except.ok none => Except.ok tblocks
  | Except.ok (some b) => Except.ok (tblocks ++ [b])

/-! ### The counts stage of `create_features` -/

/-- Model of `X.count(axis=1)` for one row: the number of non-missing cells. -/
def rowNonNullCount (r : List Val) : ℕ :=
  (r.filter (fun v => decide (v ≠ Val.missing))).length

/-- Model of `(X == i).astype(int).sum(axis=1)` for one row: the number of cells
equal to the integer `i` (a string or missing cell never compares
equal). -/
def rowEqIntCount (r : List Val) (i : ℕ) : ℕ :=
  (r.filter (fun v => decide (v = Val.num (i : ℚ)))).length

/-- The `counts_flag` stage of `create_features`: first append the
`nan_count` column (`X.count(axis=1)`, the *non*-null count per row),
then for `i = 0 … 9` append the `count_i` column, each computed from the
matrix as it stands at that point — i.e. including the `nan_count`
column and the previously appended `count_j` columns. -/
def countsStage (X : List (List Val)) : List (List Val) :=
  let X1 := X.map (fun r => r ++ [Val.num (rowNonNullCount r : ℚ)])
  (List.range 10).foldl
    (fun M i => M.map (fun r => r ++ [Val.num (rowEqIntCount r i : ℚ)])) X1

/-! ### The scaling stage of `create_features` -/

/-- The base-matrix scaling stage: when `scaler_option` is on, a
`standard` scaler standardizes and a `minmax` scaler min-max-scales;
any other `scaler_type` is merely logged ("Unrecognized scaler") and the
matrix passes through unchanged, as it does when scaling is off. -/
def scaleFeatures {α : Type} (ext : Externals α) (scaling : Bool) (scaler : Scalers)
    (allFeatures : List (List ℚ)) : List (List ℚ) :=
  if scaling then
    match scaler with
    | Scalers.standard => ext.stdScale allFeatures
    | Scalers.minmax => ext.mmScale allFeatures
    | Scalers.unknownScaler _ => allFeatures
  else allFeatures

/-! ### `select_features` -/

/-- The fields of the `model` object read and written by
`select_features`; `specs` is the configuration mapping (read for
`fs_percentage`/`fs_score_func`, never written). -/
structure SFModel (σ : Type) where
  X_train : List (List ℚ)
  X_test : List (List ℚ)
  y_train : List ℚ
  y_test : List ℚ
  specs : σ

/-- NumPy boolean-mask column selection `M[:, support]`. -/
def applyMask (support : List Bool) (rows : List (List ℚ)) : List (List ℚ) :=
  rows.map (fun r => (support.zip r).filterMap (fun p => if p.1 then some p.2 else none))

/-- Embedding of `select_features`: fit the percentile selector
(`SelectPercentile(score_func=..., percentile=...)`, a function of the
specs) on `X_train`/`y_train` only, take its boolean support mask, and
write back the masked `X_train` and `X_test`.  `fitSupport` stands for
`SelectPercentile(...).fit(X, y).get_support()`. -/
def selectFeatures {σ : Type} (fitSupport : σ → List (List ℚ) → List ℚ → List Bool)
    (model : SFModel σ) : SFModel σ :=
  let support := fitSupport model.specs model.X_train model.y_train
  { model with
    X_train := applyMask support model.X_train
    X_test := applyMask support model.X_test }

/-! ### A concrete instantiation of the external routines, used to
evaluate the embedding on concrete inputs -/

/-- A simple concrete `Externals` instance (every external routine gets
a definite, easily evaluated behaviour; the vectorizer always fails). -/
def ext0 : Externals Val where
  contrastFit := fun _ xs => xs.map (fun _ => [0])
  vecAttempt := fun _ => none
  impute := fun _ xs => xs.map (fun o => o.getD 0)
  normaltestP := fun _ => 0
  logQ := fun q => q
  floatFactor := fun _ v => v
  stdScale := fun m => m
  mmScale := fun m => m

/-! ### Theorems -/

/-- Claim C5: the z-score of a window is claimed to be total, returning
0 whenever `n1` or `n2` is 0 or the variance denominator
`(n1+n2)^2*(n1+n2-1)` is 0.  The code in fact divides by that
denominator (`sr2num / sr2den`) *before* the `if sr2den and sr` guard,
so for the window `[1]` — whose denominator is `1^2 * 0 = 0` — it raises
`ZeroDivisionError` instead of returning 0; the degenerate windows with
a nonzero denominator (`[1,1,1,1]` with `n2 = 0`, `[0,0,0,0]` with
`n1 = 0`) do return 0, as the claim states.  (`id` instantiates the
abstract `math.sqrt`; the failing path raises before any square root,
and the other paths only take `sqrt 0 = 0 = id 0`.) -/
theorem zscoreE_degenerate_eval :
    zscoreE id [1] = Except.error () ∧
    zscoreE id [1, 1, 1, 1] = Except.ok 0 ∧
    zscoreE id [0, 0, 0, 0] = Except.ok 0 := by
  refine ⟨?_, ?_, ?_⟩
  · simp [zscoreE, countNonzero, runsCount]
  · simp [zscoreE, countNonzero, runsCount]
    norm_num
  · simp [zscoreE, countNonzero, runsCount]
    norm_num

/-- Claim C4: the numerical transform returns the elementwise logarithm
of the imputed column exactly when the log-transform option is enabled,
every imputed value is strictly positive, and the normality-test p-value
is at most the configured threshold; otherwise it returns the imputed
column unchanged. -/
theorem getNumericalFeatures_log_iff {α : Type} (ext : Externals α)
    (feature : List (Option ℚ)) (dt : DType) (logt : Bool) (plevel : ℚ) :
    getNumericalFeatures ext feature dt logt plevel =
      if logt = true ∧ (∀ v ∈ ext.impute dt feature, 0 < v) ∧
          ext.normaltestP (ext.impute dt feature) ≤ plevel
      then (ext.impute dt feature).map ext.logQ
      else ext.impute dt feature := by
  unfold getNumericalFeatures
  by_cases hc : logt = true ∧ (∀ v ∈ ext.impute dt feature, 0 < v) ∧
      ext.normaltestP (ext.impute dt feature) ≤ plevel
  · rw [if_pos hc]
    obtain ⟨hl, hall, hp⟩ := hc
    have hb : (logt && (ext.impute dt feature).all (fun v => decide (0 < v))) = true := by
      rw [Bool.and_eq_true, List.all_eq_true]
      exact ⟨hl, fun v hv => decide_eq_true (hall v hv)⟩
    rw [if_pos hb, if_pos hp]
  · rw [if_neg hc]
    by_cases hb : (logt && (ext.impute dt feature).all (fun v => decide (0 < v))) = true
    · have hb' := hb
      rw [Bool.and_eq_true, List.all_eq_true] at hb'
      have hl : logt = true := hb'.1
      have hall : ∀ v ∈ ext.impute dt feature, 0 < v :=
        fun v hv => of_decide_eq_true (hb'.2 v hv)
      have hp : ¬ ext.normaltestP (ext.impute dt feature) ≤ plevel :=
        fun hp => hc ⟨hl, hall, hp⟩
      rw [if_pos hb, if_neg hp]
    · rw [if_neg hb]

/-- Claim C9: a configured treatment is additive: processing a column
that has a treatment yields exactly the treatment's block followed by
whatever the default type-based dispatch produces for that same column —
the treatment never suppresses the default transform. -/
theorem processColumn_treatment_additive (ext : Externals Val) (cfg : Config)
    (t : Column → List (List ℚ)) (col : Column)
    (XtrainCol : List Val) (ytrain : List ℤ) :
    processColumn ext cfg (some t) col XtrainCol ytrain =
      (processColumn ext cfg none col XtrainCol ytrain).map
        (fun blocks => FBlock.matrix (t col) :: blocks) := by
  unfold processColumn
  cases dispatchColumn ext cfg col XtrainCol ytrain with
  | error e => rfl
  | ok o =>
    cases o with
    | none => rfl
    | some b => rfl

/-- Claim C10: `select_features` replaces `X_train` and `X_test` with
their column-masked versions and leaves every other field of the model —
`y_train`, `y_test`, and the configuration specs — unchanged. -/
theorem selectFeatures_frame {σ : Type}
    (fitSupport : σ → List (List ℚ) → List ℚ → List Bool) (m : SFModel σ) :
    (selectFeatures fitSupport m).y_train = m.y_train ∧
    (selectFeatures fitSupport m).y_test = m.y_test ∧
    (selectFeatures fitSupport m).specs = m.specs ∧
    (selectFeatures fitSupport m).X_train =
      applyMask (fitSupport m.specs m.X_train m.y_train) m.X_train ∧
    (selectFeatures fitSupport m).X_test =
      applyMask (fitSupport m.specs m.X_train m.y_train) m.X_test :=
  ⟨rfl, rfl, rfl, rfl, rfl⟩

/-- Helper: a category that never occurs in the training column appears
in no crosstab row, so the `fillna(sentinel)` step yields the
sentinel. -/
lemma ctRate_not_mem_sentinel {α : Type} [DecidableEq α] (isNA : α → Bool)
    (XtrainCol : List α) (ytrain : List ℤ) (targetValue : ℤ) (sentinel : ℚ)
    (v : α) (hv : v ∉ XtrainCol) :
    (ctRate isNA XtrainCol ytrain targetValue v).getD sentinel = sentinel := by
  have hnil : ((XtrainCol.zip ytrain).filter (fun p => !(isNA p.1))).filter
      (fun p => decide (p.1 = v)) = [] := by
    rw [List.filter_eq_nil_iff]
    intro p hp
    obtain ⟨p1, p2⟩ := p
    have h1 := (List.of_mem_zip (List.mem_of_mem_filter hp)).1
    simp only [decide_eq_true_eq]
    intro he
    exact hv (he ▸ h1)
  simp [ctRate, hnil]

/-- Helper: a missing cell is dropped from the crosstab (`NaN` is never
a crosstab key), so it has no rate and the `fillna(sentinel)` step
yields the sentinel. -/
lemma ctRate_isNA_sentinel {α : Type} [DecidableEq α] (isNA : α → Bool)
    (XtrainCol : List α) (ytrain : List ℤ) (targetValue : ℤ) (sentinel : ℚ)
    (v : α) (hv : isNA v = true) :
    (ctRate isNA XtrainCol ytrain targetValue v).getD sentinel = sentinel := by
  have hnil : ((XtrainCol.zip ytrain).filter (fun p => !(isNA p.1))).filter
      (fun p => decide (p.1 = v)) = [] := by
    rw [List.filter_eq_nil_iff]
    intro p hp
    have h1 := List.of_mem_filter hp
    simp only [decide_eq_true_eq]
    intro he
    rw [he, hv] at h1
    simp at h1
  simp [ctRate, hnil]

/-- Claim C6: with the counts option on, the orchestrator is claimed to
add a missing-value count per row and then, for each `i` in 0–9, the
count of occurrences of `i` in that row.  On the one-row matrix `[[5]]`
(no missing values, no occurrence of 1) the code instead appends
`nan_count = 1` — `X.count(axis=1)` counts *non*-null cells — and
`count_1 = 1`, because each `count_i` column is computed over the
already-augmented matrix, so `count_1` sees the appended
`nan_count = 1` cell.  The claimed output row would have been
`[5, 0, 0, 0, 0, 0, 0, 1, 0, 0, 0, 0]`. -/
theorem countsStage_eval :
    countsStage [[Val.num 5]] =
      [[Val.num 5, Val.num 1, Val.num 0, Val.num 1, Val.num 0, Val.num 0,
        Val.num 0, Val.num 1, Val.num 0, Val.num 0, Val.num 0, Val.num 0]] ∧
    rowNonNullCount [Val.num 5] = 1 ∧
    rowEqIntCount [Val.num 5] 1 = 0 := by
  refine ⟨by decide, by decide, by decide⟩

/-- Claim C1: the factorize encoding of a 3-category column is claimed
to produce one integer id column, appended to the base matrix.  In
`get_factors` the `pd.factorize` result (`ce_features`) is computed but
never assigned to the returned `all_features`, which is only set under
`if enc is not None`; for `encoder = factorize` the function returns
`None`, and the `create_features` loop then appends nothing for the
column.  The last clause records what the claimed block would have been:
`pd.factorize` on the cardinality-3 column gives ids `[0, 1, 2, 0]`. -/
theorem getFactors_factorize_returns_none :
    (∀ (ext : Externals Val) (isNA : Val → Bool),
      getFactors ext isNA Encoders.factorize DType.object 0
        [Val.str "a", Val.str "b", Val.str "c", Val.str "a"]
        [Val.str "a", Val.str "b"] [0, 1] 1 (-1) false = Except.ok none) ∧
    (∀ ext : Externals Val,
      processColumn ext
        (Config.mk 10 Encoders.factorize 0 (-1) 1 false 0 false false) none
        (Column.mk DType.object [Val.str "a", Val.str "b", Val.str "c", Val.str "a"])
        [Val.str "a", Val.str "b"] [0, 1] = Except.ok []) ∧
    pdFactorizeOpt [some "a", some "b", some "c", some "a"] = [0, 1, 2, 0] := by
  refine ⟨fun _ _ => rfl, fun _ => rfl, by decide⟩

/-- Claim C2, counterexample: a classification run over a categorical
column with `encoder = factorize` produces *no* target-rate column (and
indeed no block at all): `get_factors` returns `None` before the
target-percentage code, which only runs when `enc is not None`.  The
claim's "for every classification run and every categorical column" is
therefore false as stated. -/
theorem getFactors_factorize_no_rate_column :
    getFactors ext0 (fun v => decide (v = Val.missing)) Encoders.factorize
      DType.object 0
      [Val.str "a", Val.str "b"] [Val.str "a"] [1] 1 (-9) true = Except.ok none := rfl

/-- Claim C2, amended: for the six contrast encoders (where the encoding
assigns `enc`), on a classification run whose target value labels some
crosstab pair — a training row with a *non-missing* category, since
`pd.crosstab` drops missing-category rows — `get_factors` returns the
encoded block with the rate column appended per row; the rates are
computed from the training partition only, broadcast over the whole
column `dfCol`, and a row whose category is absent from the training
column, or whose cell is itself missing (dropped from the crosstab),
gets exactly the sentinel, never an undefined value. -/
theorem getFactors_target_rates {α : Type} [DecidableEq α] (ext : Externals α)
    (isNA : α → Bool) (encoder : Encoders) (dtype : DType) (rounding : ℕ)
    (dfCol XtrainCol : List α) (ytrain : List ℤ) (targetValue : ℤ) (sentinel : ℚ)
    (henc : encoder = Encoders.ordinal ∨ encoder = Encoders.binary ∨
            encoder = Encoders.helmert ∨ encoder = Encoders.sumcont ∨
            encoder = Encoders.polynomial ∨ encoder = Encoders.backdiff)
    (htv : targetValue ∈
      ((XtrainCol.zip ytrain).filter (fun p => !(isNA p.1))).map Prod.snd) :
    getFactors ext isNA encoder dtype rounding dfCol XtrainCol ytrain
        targetValue sentinel true =
      Except.ok (some (List.zipWith (fun r q => r ++ [q])
        (ext.contrastFit encoder
          (if dtype = DType.float64 then dfCol.map (ext.floatFactor rounding) else dfCol))
        (dfCol.map (fun v => (ctRate isNA XtrainCol ytrain targetValue v).getD sentinel)))) ∧
    (∀ v : α, v ∉ XtrainCol →
      (ctRate isNA XtrainCol ytrain targetValue v).getD sentinel = sentinel) ∧
    (∀ v : α, isNA v = true →
      (ctRate isNA XtrainCol ytrain targetValue v).getD sentinel = sentinel) := by
  refine ⟨?_,
    fun v hv => ctRate_not_mem_sentinel isNA XtrainCol ytrain targetValue sentinel v hv,
    fun v hv => ctRate_isNA_sentinel isNA XtrainCol ytrain targetValue sentinel v hv⟩
  rcases henc with h | h | h | h | h | h <;> subst h <;> simp [getFactors, htv]

/-- Claim C2, witness: a concrete classification run with the ordinal
encoder, training column `["a", missing]` with labels `[1, 0]` and
target value 1.  The crosstab drops the missing-category training row,
so the crosstab is built from the single pair `("a", 1)`: the category
`"a"` receives rate `1/1 = 1`, while `"b"` (absent from the training
partition) and the missing cell both receive the sentinel `-9`, appended
to the encoded rows; an arbitrary unseen category `"z"` also maps to the
sentinel.  The final clause checks the `KeyError` path: when the target
value labels only missing-category training rows, the crosstab has no
such column and `ct.to_dict()[target_value]` raises. -/
theorem getFactors_target_rates_witness :
    getFactors ext0 (fun v => decide (v = Val.missing)) Encoders.ordinal
      DType.object 0
      [Val.str "a", Val.str "b", Val.missing] [Val.str "a", Val.missing] [1, 0]
      1 (-9) true =
      Except.ok (some [[0, 1], [0, -9], [0, -9]]) ∧
    (ctRate (fun v => decide (v = Val.missing)) [Val.str "a", Val.missing]
      ([1, 0] : List ℤ) 1 (Val.str "z")).getD (-9) = -9 ∧
    getFactors ext0 (fun v => decide (v = Val.missing)) Encoders.ordinal
      DType.object 0
      [Val.str "a"] [Val.missing] [1] 1 (-9) true = Except.error "KeyError" := by
  have h := getFactors_target_rates ext0 (fun v => decide (v = Val.missing))
    Encoders.ordinal DType.object 0
    [Val.str "a", Val.str "b", Val.missing] [Val.str "a", Val.missing] [1, 0]
    1 (-9) (Or.inl rfl) (by decide)
  refine ⟨?_, h.2.1 (Val.str "z") (by decide), rfl⟩
  rw [h.1]
  simp [getFactors, ctRate, ext0]

/-- Helper: factorizing a column with no missing values yields only
nonnegative ids (no `-1` missing marker). -/
lemma pdFactorizeOpt_map_some_nonneg {α : Type} [DecidableEq α] (xs : List α) :
    ∀ x ∈ pdFactorizeOpt (xs.map some), 0 ≤ x := by
  intro x hx
  simp only [pdFactorizeOpt, List.map_map, List.mem_map] at hx
  obtain ⟨v, hv, rfl⟩ := hx
  exact Int.natCast_nonneg _

/-- Claim C3, counterexample: on an object column whose values are all
missing, `get_text_features` raises before the `fillna`:
`int(feature.str.len().min())` is `int(NaN)`, a `ValueError`.  So "the
Text Transform never raises" is false as stated. -/
theorem getTextFeatures_all_missing_raises :
    getTextFeatures ext0 [(none : Option String)] true = Except.error () := rfl

/-- Claim C3, amended: on an object column with at least one present
value, `get_text_features` never raises; whenever vectorization is
disabled or the vectorizer fails, the result is the factorization of the
`NULLTEXT`-filled column; and a factorized result contains no missing
markers (all ids are nonnegative), since the `fillna` precedes the
factorization. -/
theorem getTextFeatures_total {α : Type} (ext : Externals α)
    (feature : List (Option String)) (vectorize : Bool)
    (h : ∃ s, some s ∈ feature) :
    ∃ tb, getTextFeatures ext feature vectorize = Except.ok tb ∧
      (∀ ids, tb = TextBlock.factorized ids → ∀ x ∈ ids, 0 ≤ x) ∧
      ((vectorize = false ∨
          ext.vecAttempt (feature.map (fun o => o.getD NULLTEXT)) = none) →
        tb = TextBlock.factorized
          (pdFactorizeOpt ((feature.map (fun o => o.getD NULLTEXT)).map some))) := by
  obtain ⟨s, hs⟩ := h
  have hsmem : s ∈ feature.filterMap id := by
    rw [List.mem_filterMap]
    exact ⟨some s, hs, rfl⟩
  have hne : (feature.filterMap id).map String.length ≠ [] :=
    List.ne_nil_of_mem (List.mem_map_of_mem String.length hsmem)
  obtain ⟨m, hm⟩ : ∃ m, ((feature.filterMap id).map String.length).min? = some m := by
    cases hq : ((feature.filterMap id).map String.length).min? with
    | none => exact absurd (List.min?_eq_none_iff.mp hq) hne
    | some m => exact ⟨m, rfl⟩
  simp only [getTextFeatures, hm]
  cases vectorize with
  | false =>
    refine ⟨TextBlock.factorized
      (pdFactorizeOpt ((feature.map (fun o => o.getD NULLTEXT)).map some)),
      by simp, ?_, fun _ => rfl⟩
    intro ids hids x hx
    injection hids with h2
    subst h2
    exact pdFactorizeOpt_map_some_nonneg _ x hx
  | true =>
    cases hva : ext.vecAttempt (feature.map (fun o => o.getD NULLTEXT)) with
    | some rows =>
      refine ⟨TextBlock.dense rows, by simp [hva], ?_, ?_⟩
      · intro ids hids
        exact absurd hids (by simp)
      · intro hor
        rcases hor with hf | hn
        · exact absurd hf (by simp)
        · exact absurd hn (by simp)
    | none =>
      refine ⟨TextBlock.factorized
        (pdFactorizeOpt ((feature.map (fun o => o.getD NULLTEXT)).map some)),
        by simp [hva], ?_, fun _ => rfl⟩
      intro ids hids x hx
      injection hids with h2
      subst h2
      exact pdFactorizeOpt_map_some_nonneg _ x hx

/-- Claim C3, witness: a concrete object column with one present value
and one missing value, vectorization enabled, vectorizer failing:
the transform succeeds with the factorized filled column `[0, 1]`. -/
theorem getTextFeatures_total_witness :
    getTextFeatures ext0 [some "ab", none] true =
      Except.ok (TextBlock.factorized [0, 1]) := by
  obtain ⟨tb, htb, hnn, hfb⟩ :=
    getTextFeatures_total ext0 [some "ab", none] true ⟨"ab", by decide⟩
  have h3 : tb = TextBlock.factorized [0, 1] := by
    rw [hfb (Or.inr rfl)]
    decide
  rw [htb, h3]

/-- Claim C7: an unknown encoder value makes `get_factors` raise
(`ValueError`), an unrecognized column dtype makes the dispatch raise
(`TypeError`, "Base Feature Error"), while an unrecognized scaler value
with scaling enabled is only logged: the matrix passes through
unchanged and no error is raised. -/
theorem config_error_handling (ext : Externals Val) (cfg : Config) :
    (∀ (s : String) (isNA : Val → Bool) (dt : DType) (rounding : ℕ)
        (dfCol XtrainCol : List Val)
        (ytrain : List ℤ) (targetValue : ℤ) (sentinel : ℚ) (classify : Bool),
      getFactors ext isNA (Encoders.unknownEnc s) dt rounding dfCol XtrainCol ytrain
        targetValue sentinel classify = Except.error "Unknown Encoder") ∧
    (∀ (col : Column) (XtrainCol : List Val) (ytrain : List ℤ) (ds : String),
      col.dtype = DType.other ds → cfg.dummyLimit < nuniqueCol col →
      dispatchColumn ext cfg col XtrainCol ytrain =
        Except.error "Base Feature Error with unrecognized type") ∧
    (∀ (s : String) (m : List (List ℚ)),
      scaleFeatures ext true (Scalers.unknownScaler s) m = m) := by
  refine ⟨fun _ _ _ _ _ _ _ _ _ _ => rfl, ?_, fun _ _ => rfl⟩
  intro col XtrainCol ytrain ds h1 h2
  unfold dispatchColumn
  rw [if_neg (not_le.mpr h2), h1]
  simp

/-- Claim C7, witness: concrete instances of all three behaviours — a
column of dtype `"weird"` above the dummy limit aborts the dispatch, the
unknown encoder `"mystery"` aborts `get_factors`, and the unknown scaler
`"bogus"` leaves the matrix `[[1]]` unchanged. -/
theorem config_error_handling_witness :
    dispatchColumn ext0 (Config.mk 0 Encoders.factorize 0 0 1 false 0 false false)
      (Column.mk (DType.other "weird") [Val.num 1]) [] [] =
      Except.error "Base Feature Error with unrecognized type" ∧
    getFactors ext0 (fun v => decide (v = Val.missing)) (Encoders.unknownEnc "mystery")
      DType.int64 0 [] [] [] 1 0 false =
      Except.error "Unknown Encoder" ∧
    scaleFeatures ext0 true (Scalers.unknownScaler "bogus") [[1]] = [[1]] := by
  have h := config_error_handling ext0
    (Config.mk 0 Encoders.factorize 0 0 1 false 0 false false)
  exact ⟨h.2.1 (Column.mk (DType.other "weird") [Val.num 1]) [] [] "weird" rfl
           (by decide),
         h.1 "mystery" (fun v => decide (v = Val.missing)) DType.int64 0 [] [] [] 1 0 false,
         h.2.2 "bogus" [[1]]⟩

/-- Helper: masking a row whose length equals the mask's length yields
exactly as many entries as the mask has `true` positions. -/
lemma mask_row_length (support : List Bool) (r : List ℚ)
    (h : support.length = r.length) :
    ((support.zip r).filterMap (fun p => if p.1 then some p.2 else none)).length
      = support.countP id := by
  induction support generalizing r with
  | nil => simp
  | cons b bs ih =>
    cases r with
    | nil => simp at h
    | cons x xs =>
      have h' : bs.length = xs.length := by simpa using h
      cases b with
      | false => simpa [List.countP_cons] using ih xs h'
      | true => simpa [List.countP_cons] using ih xs h'

/-- Claim C8: `select_features` fits the percentile selector on the
training matrix and labels only and applies the resulting boolean mask
to both matrices by column position: both reduced matrices have the same
column count — the number of `true` positions of the mask — which is at
most the input column count, and the mask (hence the reduced training
matrix) does not depend on the test matrix at all. -/
theorem selectFeatures_mask (σ : Type)
    (fitSupport : σ → List (List ℚ) → List ℚ → List Bool)
    (m : SFModel σ) (n : ℕ)
    (htr : ∀ r ∈ m.X_train, r.length = n)
    (hte : ∀ r ∈ m.X_test, r.length = n)
    (hfit : (fitSupport m.specs m.X_train m.y_train).length = n) :
    (∀ r ∈ (selectFeatures fitSupport m).X_train,
        r.length = (fitSupport m.specs m.X_train m.y_train).countP id) ∧
    (∀ r ∈ (selectFeatures fitSupport m).X_test,
        r.length = (fitSupport m.specs m.X_train m.y_train).countP id) ∧
    (fitSupport m.specs m.X_train m.y_train).countP id ≤ n ∧
    (∀ Xtest2 : List (List ℚ),
      (selectFeatures fitSupport
        (SFModel.mk m.X_train Xtest2 m.y_train m.y_test m.specs)).X_train =
      (selectFeatures fitSupport m).X_train) := by
  refine ⟨?_, ?_, ?_, fun _ => rfl⟩
  · intro r hr
    obtain ⟨r0, hr0, rfl⟩ := List.mem_map.mp hr
    exact mask_row_length _ r0 (by rw [hfit, htr r0 hr0])
  · intro r hr
    obtain ⟨r0, hr0, rfl⟩ := List.mem_map.mp hr
    exact mask_row_length _ r0 (by rw [hfit, hte r0 hr0])
  · calc (fitSupport m.specs m.X_train m.y_train).countP id
        ≤ (fitSupport m.specs m.X_train m.y_train).length :=
          List.countP_le_length id
      _ = n := hfit

/-- Claim C8, witness: a concrete model with one training row `[1, 2]`,
one test row `[3, 4]` and the mask `[true, false]`: the retained column
count is at most 2, and replacing the test matrix leaves the reduced
training matrix unchanged. -/
theorem selectFeatures_mask_witness :
    List.countP id [true, false] ≤ 2 ∧
    (selectFeatures (fun (_ : Unit) _ _ => [true, false])
        (SFModel.mk [[1, 2]] [[9, 9]] [0] [] ())).X_train =
      (selectFeatures (fun (_ : Unit) _ _ => [true, false])
        (SFModel.mk [[1, 2]] [[3, 4]] [0] [] ())).X_train := by
  have h := selectFeatures_mask Unit (fun _ _ _ => [true, false])
    (SFModel.mk [[1, 2]] [[3, 4]] [0] [] ()) 2
    (by decide) (by decide) (by decide)
  exact ⟨h.2.2.1, h.2.2.2 [[9, 9]]⟩
